import Mathlib

/-
Verification of the two deterministic tool functions of backend/adk_agent.py:
suggest_study_schedule_tool (the Schedule Slot Planner) and
analyze_learning_progress_tool (the Progress Analyzer).

The Python code is embedded shallowly: integers become Nat (the documented
input domain is the non-negative integers) or Int where the code can go
negative, Python float arithmetic becomes exact rational arithmetic over
Rat, and every operation that can raise at runtime in CPython
(ZeroDivisionError from % and /, IndexError from list subscripts,
ValueError from int()) returns Option, with none for the raising case.
-/

/-- Python `a % b` on non-negative integers: raises ZeroDivisionError when
`b == 0`, hence Option. -/
def pymod (a b : Nat) : Option Nat := if b = 0 then none else some (a % b)

/-- Python true division `a / b` on rationals: raises ZeroDivisionError when
`b == 0`, hence Option. -/
def pydivQ (a b : ℚ) : Option ℚ := if b = 0 then none else some (a / b)

/-- Splitting a character list at every occurrence of the separator, as
Python `str.split(sep)` does for a one-character separator. Structural
recursion so that concrete instances reduce in the kernel. -/
def splitOnChar (c : Char) : List Char → List (List Char)
  | [] => [[]]
  | x :: xs =>
    let r := splitOnChar c xs
    if x == c then [] :: r
    else
      match r with
      | [] => [[x]]
      | y :: ys => (x :: y) :: ys

/-- Python `s.split(sep)` for a one-character separator. -/
def pysplit (sep : Char) (s : String) : List String :=
  (splitOnChar sep s.data).map String.mk

/-- Value of a digit string, most significant digit first. -/
def charsToNat (cs : List Char) : Nat :=
  cs.foldl (fun n c => n * 10 + (c.toNat - Char.toNat '0')) 0

/-- Python `int(s)` restricted to the digit-only strings that occur in this
code (the hour fields of the fixed time-slot tables); on anything else it
models the ValueError as none. -/
def pyint (s : String) : Option Nat :=
  if s.data ≠ [] ∧ s.data.all Char.isDigit then some (charsToNat s.data) else none

/-- Python `round(q, 2)`. Modelled over the exact rationals; the only
difference from CPython (round-half-even on binary floats) is at exact
half-cent ties, which no input considered here produces. -/
def round2 (q : ℚ) : ℚ := ((⌊q * 100 + 1 / 2⌋ : ℤ) : ℚ) / 100

/-- Effectful map over a list in the Option monad, mirroring a Python for
loop that appends one element per iteration and propagates any raise. -/
def mapMOpt (f : α → Option β) : List α → Option (List β)
  | [] => some []
  | x :: xs => do
    let y ← f x
    let ys ← mapMOpt f xs
    pure (y :: ys)

/-- One study session, the dict appended at adk_agent.py lines 146-152. -/
structure StudySession where
  day : Nat
  dayName : String
  startTime : String
  endTime : String
  duration : Nat
deriving Repr, DecidableEq

/-- The result envelope of suggest_study_schedule_tool, lines 154-160. -/
structure ScheduleResult where
  success : Bool
  totalHours : Nat
  sessionsPerWeek : Nat
  schedule : List StudySession
  message : String
deriving Repr, DecidableEq

/-- The result envelope of analyze_learning_progress_tool, lines 201-212.
The message field (float string formatting only) is not modelled. -/
structure ProgressReport where
  success : Bool
  completionRate : ℚ
  weekProgress : ℚ
  onTrack : Bool
  status : String
  completedSessions : Nat
  totalSessions : Nat
  sessionsRemaining : Int
  recommendations : List String
deriving Repr, DecidableEq

/-- The day_mapping dict of adk_agent.py lines 111-114. -/
def day_mapping : List (String × Nat) :=
  [("Sunday", 0), ("Monday", 1), ("Tuesday", 2), ("Wednesday", 3),
   ("Thursday", 4), ("Friday", 5), ("Saturday", 6)]

/-- time_slots["morning"], line 117. -/
def morningSlots : List String := ["9:00 AM", "10:00 AM", "11:00 AM"]

/-- time_slots["afternoon"], line 118. -/
def afternoonSlots : List String := ["2:00 PM", "3:00 PM", "4:00 PM"]

/-- time_slots["evening"], line 119. -/
def eveningSlots : List String := ["6:00 PM", "7:00 PM", "8:00 PM"]

/-- The time_slots dict of lines 116-120. -/
def time_slots : List (String × List String) :=
  [("morning", morningSlots), ("afternoon", afternoonSlots), ("evening", eveningSlots)]

/-- The two parsing operations the loop body applies to a start time:
`int(start_time.split(":")[0])` and `start_time.split(" ")[1]`
(lines 134-135), packaged for use in theorem statements. -/
def parseStart (t : String) : Option (Nat × String) := do
  let h ← pyint ((pysplit ':' t).headD "")
  let suf ← (pysplit ' ' t).get? 1
  pure (h, suf)

/-- The body of the for loop of suggest_study_schedule_tool
(adk_agent.py lines 128-152) for loop index i. -/
def mkSession (preferred_days start_times : List String)
    (hours_per_session i : Nat) : Option StudySession := do
  let dIdx ← pymod i preferred_days.length
  let day_name ← preferred_days.get? dIdx
  let day_num := (List.lookup day_name day_mapping).getD 1
  let sIdx ← pymod i start_times.length
  let start_time ← start_times.get? sIdx
  let start_hour ← pyint ((pysplit ':' start_time).headD "")
  let am_pm ← (pysplit ' ' start_time).get? 1
  let end_hour := start_hour + hours_per_session
  let ep :=
    if end_hour > 12 then (end_hour - 12, if am_pm == "AM" then "PM" else "PM")
    else (end_hour, am_pm)
  let end_time := toString ep.1 ++ ":00 " ++ ep.2
  pure { day := day_num, dayName := day_name, startTime := start_time,
         endTime := end_time, duration := hours_per_session }

/-- suggest_study_schedule_tool, adk_agent.py lines 95-160. -/
def suggest_study_schedule_tool (available_hours : Nat)
    (preferred_days : List String) (time_preference : String) :
    Option ScheduleResult := do
  let hours_per_session := 2
  let num_sessions := available_hours / hours_per_session
  let start_times := (List.lookup time_preference time_slots).getD morningSlots
  let sessions ← mapMOpt (mkSession preferred_days start_times hours_per_session)
      (List.range (min num_sessions preferred_days.length))
  pure { success := true, totalHours := available_hours,
         sessionsPerWeek := sessions.length, schedule := sessions,
         message := "Created " ++ toString sessions.length ++
           " study sessions totaling " ++
           toString (sessions.length * hours_per_session) ++ " hours" }

/-- Recommendation string of line 191. -/
def recSchedule : String :=
  "Consider reviewing your schedule to ensure you have enough time allocated"

/-- Recommendation string of line 193. -/
def recBehind : String :=
  "You\x27re slightly behind schedule. Try to catch up this week"

/-- Recommendation string of line 195. -/
def recExcellent : String :=
  "Excellent progress! Keep up the great work"

/-- Recommendation string of line 197. -/
def recHalfway : String :=
  "You\x27re past the halfway point. Consider increasing study intensity"

/-- completion_rate, adk_agent.py line 181 (guarded conditional expression). -/
def completionRateOf (completed_sessions total_sessions : Nat) : ℚ :=
  if total_sessions > 0
  then (completed_sessions : ℚ) / (total_sessions : ℚ) * 100 else 0

/-- week_progress, adk_agent.py line 182 (guarded conditional expression). -/
def weekProgressOf (current_week total_weeks : Nat) : ℚ :=
  if total_weeks > 0 then (current_week : ℚ) / (total_weeks : ℚ) * 100 else 0

/-- analyze_learning_progress_tool, adk_agent.py lines 163-212. The
division at line 185 computing expected_completion is NOT guarded in the
source, so it goes through pydivQ and the whole call is none when
total_weeks == 0. -/
def analyze_learning_progress_tool (completed_sessions total_sessions
    current_week total_weeks : Nat) : Option ProgressReport := do
  let completion_rate := completionRateOf completed_sessions total_sessions
  let week_progress := weekProgressOf current_week total_weeks
  let q ← pydivQ (current_week : ℚ) (total_weeks : ℚ)
  let expected_completion := q * (total_sessions : ℚ)
  let on_track := decide ((completed_sessions : ℚ) ≥ expected_completion * (9 / 10))
  let recommendations :=
    (if completion_rate < 70 then [recSchedule] else []) ++
    (if on_track = false then [recBehind] else []) ++
    (if completion_rate > 90 then [recExcellent] else []) ++
    (if (current_week : ℚ) > (total_weeks : ℚ) / 2 ∧ completion_rate < 50
     then [recHalfway] else [])
  let status :=
    if completion_rate > 90 then "Excellent"
    else if completion_rate > 70 then "Good" else "Needs Attention"
  pure { success := true,
         completionRate := round2 completion_rate,
         weekProgress := round2 week_progress,
         onTrack := on_track,
         status := status,
         completedSessions := completed_sessions,
         totalSessions := total_sessions,
         sessionsRemaining := (total_sessions : ℤ) - (completed_sessions : ℤ),
         recommendations := recommendations }

/-- The concrete result of the planner on the section 8 test vector
(10 hours, Monday/Wednesday/Friday, morning), used to instantiate
universally quantified theorems at a concrete input. -/
def mwfScheduleTen : ScheduleResult :=
  { success := true, totalHours := 10, sessionsPerWeek := 3,
    schedule := [
      { day := 1, dayName := "Monday", startTime := "9:00 AM",
        endTime := "11:00 AM", duration := 2 },
      { day := 3, dayName := "Wednesday", startTime := "10:00 AM",
        endTime := "12:00 AM", duration := 2 },
      { day := 5, dayName := "Friday", startTime := "11:00 AM",
        endTime := "1:00 PM", duration := 2 }],
    message := "Created 3 study sessions totaling 6 hours" }

/-- The end-time rule exactly as the specification states it in 4.1 step 5:
add two hours, and when the sum exceeds 12 wrap by subtracting 12 KEEPING
the AM/PM suffix of the start time. Written from the wording of the spec,
to be compared against the code; the code instead writes PM on the wrap. -/
def specKeepSuffixEndTime (startHour : Nat) (suffix : String) : String :=
  if startHour + 2 > 12 then toString (startHour + 2 - 12) ++ ":00 " ++ suffix
  else toString (startHour + 2) ++ ":00 " ++ suffix

theorem round2_of_cast (n : ℤ) (q : ℚ) (h : q * 100 = (n : ℚ)) : round2 q = (n : ℚ) / 100 := by
  have h12 : (⌊(1 / 2 : ℚ)⌋ : ℤ) = 0 := by
    rw [Int.floor_eq_zero_iff]
    constructor <;> norm_num
  unfold round2
  rw [h, add_comm, Int.floor_add_int, h12]
  norm_num

theorem mapMOpt_length {α β : Type} (f : α → Option β) :
    ∀ (xs : List α) (ys : List β), mapMOpt f xs = some ys → ys.length = xs.length := by
  intro xs
  induction xs with
  | nil =>
    intro ys h
    simp only [mapMOpt, Option.some.injEq] at h
    subst h
    rfl
  | cons x xs ih =>
    intro ys h
    simp only [mapMOpt, Option.bind_eq_bind', Option.bind_eq_some, Option.pure_def,
      Option.some.injEq] at h
    obtain ⟨y, -, ys2, hys2, rfl⟩ := h
    simp [ih ys2 hys2]

theorem mapMOpt_isSome {α β : Type} (f : α → Option β) :
    ∀ xs : List α, (∀ x ∈ xs, (f x).isSome) → ∃ ys, mapMOpt f xs = some ys := by
  intro xs
  induction xs with
  | nil => exact fun _ => ⟨[], rfl⟩
  | cons x xs ih =>
    intro h
    obtain ⟨y, hy⟩ := Option.isSome_iff_exists.mp (h x (List.mem_cons_self x xs))
    obtain ⟨ys, hys⟩ := ih fun z hz => h z (List.mem_cons_of_mem x hz)
    refine ⟨y :: ys, ?_⟩
    simp only [mapMOpt, Option.bind_eq_bind', hy, hys, Option.some_bind, Option.pure_def]

theorem mapMOpt_mem {α β : Type} (f : α → Option β) :
    ∀ (xs : List α) (ys : List β), mapMOpt f xs = some ys →
      ∀ y ∈ ys, ∃ x, x ∈ xs ∧ f x = some y := by
  intro xs
  induction xs with
  | nil =>
    intro ys h y hy
    simp only [mapMOpt, Option.some.injEq] at h
    subst h
    simp at hy
  | cons x xs ih =>
    intro ys h y hy
    simp only [mapMOpt, Option.bind_eq_bind', Option.bind_eq_some, Option.pure_def,
      Option.some.injEq] at h
    obtain ⟨z, hz, ys2, hys2, rfl⟩ := h
    rcases List.mem_cons.mp hy with rfl | hmem
    · exact ⟨x, List.mem_cons_self x xs, hz⟩
    · obtain ⟨w, hw, hfw⟩ := ih ys2 hys2 y hmem
      exact ⟨w, List.mem_cons_of_mem x hw, hfw⟩

theorem mkSession_some_spec {days slots : List String} {hps i : Nat} {s : StudySession}
    (h : mkSession days slots hps i = some s) :
    s.duration = hps ∧
    s.day = (List.lookup s.dayName day_mapping).getD 1 ∧
    ∀ hh suf, parseStart s.startTime = some (hh, suf) →
      s.endTime = if hh + hps > 12 then toString (hh + hps - 12) ++ ":00 " ++ "PM"
                  else toString (hh + hps) ++ ":00 " ++ suf := by
  simp only [mkSession, Option.bind_eq_bind', Option.bind_eq_some, Option.pure_def,
    Option.some.injEq] at h
  obtain ⟨dIdx, hdIdx, day_name, hday, sIdx, hsIdx, start_time, hst, start_hour, hsh,
    am_pm, hap, hs⟩ := h
  subst hs
  refine ⟨rfl, rfl, ?_⟩
  intro hh suf hp
  simp only [parseStart, Option.bind_eq_bind', Option.bind_eq_some, Option.pure_def,
    Option.some.injEq] at hp
  obtain ⟨h1, hh1, s1, hs1, hpair⟩ := hp
  rw [hsh, Option.some.injEq] at hh1
  rw [hap, Option.some.injEq] at hs1
  subst hh1
  subst hs1
  rw [Prod.mk.injEq] at hpair
  obtain ⟨rfl, rfl⟩ := hpair
  by_cases hgt : start_hour + hps > 12
  · simp [hgt, ite_self]
  · simp [hgt]

theorem mkSession_isSome {days slots : List String} (hps i : Nat)
    (hd : days ≠ []) (t : String) (hget : slots.get? (i % slots.length) = some t)
    (hh : Nat) (suf : String) (hpt : parseStart t = some (hh, suf)) :
    (mkSession days slots hps i).isSome := by
  have hdl : days.length ≠ 0 := fun h0 => hd (List.length_eq_zero.mp h0)
  have hsl : slots.length ≠ 0 := by
    intro h0
    rw [List.length_eq_zero] at h0
    subst h0
    simp at hget
  have hdlt : i % days.length < days.length := Nat.mod_lt _ (Nat.pos_of_ne_zero hdl)
  have hdn := List.get?_eq_get hdlt
  simp only [parseStart, Option.bind_eq_bind', Option.bind_eq_some, Option.pure_def,
    Option.some.injEq] at hpt
  obtain ⟨h1, hh1, s1, hs1, -⟩ := hpt
  simp only [mkSession, Option.bind_eq_bind', pymod, if_neg hdl, if_neg hsl,
    Option.some_bind, hdn, hget, hh1, hs1, Option.pure_def, Option.isSome_some]

theorem slots_mem_pools (tp : String) :
    (List.lookup tp time_slots).getD morningSlots = morningSlots ∨
    (List.lookup tp time_slots).getD morningSlots = afternoonSlots ∨
    (List.lookup tp time_slots).getD morningSlots = eveningSlots := by
  by_cases h1 : tp = "morning"
  · subst h1; left; rfl
  by_cases h2 : tp = "afternoon"
  · subst h2; right; left; rfl
  by_cases h3 : tp = "evening"
  · subst h3; right; right; rfl
  have e1 : (tp == "morning") = false := beq_eq_false_iff_ne.mpr h1
  have e2 : (tp == "afternoon") = false := beq_eq_false_iff_ne.mpr h2
  have e3 : (tp == "evening") = false := beq_eq_false_iff_ne.mpr h3
  left
  simp [time_slots, List.lookup, e1, e2, e3]

theorem pool_get (a b c : String) (i : Nat) :
    ∃ t, ([a, b, c] : List String).get? (i % ([a, b, c] : List String).length) = some t ∧
      (t = a ∨ t = b ∨ t = c) := by
  have h3 : i % 3 = 0 ∨ i % 3 = 1 ∨ i % 3 = 2 := by omega
  have hlen : ([a, b, c] : List String).length = 3 := rfl
  rw [hlen]
  rcases h3 with h | h | h <;> rw [h]
  · exact ⟨a, rfl, Or.inl rfl⟩
  · exact ⟨b, rfl, Or.inr (Or.inl rfl)⟩
  · exact ⟨c, rfl, Or.inr (Or.inr rfl)⟩

theorem mkSession_pool_isSome (days : List String) (tp : String) (i : Nat) (hd : days ≠ []) :
    (mkSession days ((List.lookup tp time_slots).getD morningSlots) 2 i).isSome := by
  rcases slots_mem_pools tp with hm | hm | hm <;> rw [hm]
  · simp only [morningSlots]
    obtain ⟨t, hget, ht⟩ := pool_get "9:00 AM" "10:00 AM" "11:00 AM" i
    rcases ht with rfl | rfl | rfl
    · exact mkSession_isSome 2 i hd _ hget 9 "AM" (by decide)
    · exact mkSession_isSome 2 i hd _ hget 10 "AM" (by decide)
    · exact mkSession_isSome 2 i hd _ hget 11 "AM" (by decide)
  · simp only [afternoonSlots]
    obtain ⟨t, hget, ht⟩ := pool_get "2:00 PM" "3:00 PM" "4:00 PM" i
    rcases ht with rfl | rfl | rfl
    · exact mkSession_isSome 2 i hd _ hget 2 "PM" (by decide)
    · exact mkSession_isSome 2 i hd _ hget 3 "PM" (by decide)
    · exact mkSession_isSome 2 i hd _ hget 4 "PM" (by decide)
  · simp only [eveningSlots]
    obtain ⟨t, hget, ht⟩ := pool_get "6:00 PM" "7:00 PM" "8:00 PM" i
    rcases ht with rfl | rfl | rfl
    · exact mkSession_isSome 2 i hd _ hget 6 "PM" (by decide)
    · exact mkSession_isSome 2 i hd _ hget 7 "PM" (by decide)
    · exact mkSession_isSome 2 i hd _ hget 8 "PM" (by decide)

theorem suggest_nil (ah : Nat) (tp : String) :
    suggest_study_schedule_tool ah [] tp = some
      { success := true, totalHours := ah, sessionsPerWeek := 0, schedule := [],
        message := "Created 0 study sessions totaling 0 hours" } := by
  simp only [suggest_study_schedule_tool, List.length_nil, Nat.min_zero, List.range_zero,
    mapMOpt, Option.bind_eq_bind', Option.some_bind, Option.pure_def]
  rfl

theorem suggest_spec (ah : Nat) (days : List String) (tp : String) :
    ∃ r, suggest_study_schedule_tool ah days tp = some r ∧
      r.success = true ∧ r.totalHours = ah ∧
      r.sessionsPerWeek = r.schedule.length ∧
      r.schedule.length = min (ah / 2) days.length ∧
      ∀ s ∈ r.schedule,
        ∃ i, mkSession days ((List.lookup tp time_slots).getD morningSlots) 2 i = some s := by
  by_cases hd : days = []
  · subst hd
    exact ⟨_, suggest_nil ah tp, rfl, rfl, rfl, by simp, by simp⟩
  · obtain ⟨ys, hys⟩ := mapMOpt_isSome
      (mkSession days ((List.lookup tp time_slots).getD morningSlots) 2)
      (List.range (min (ah / 2) days.length))
      (fun x _ => mkSession_pool_isSome days tp x hd)
    have heq : suggest_study_schedule_tool ah days tp = some
        { success := true, totalHours := ah, sessionsPerWeek := ys.length, schedule := ys,
          message := "Created " ++ toString ys.length ++ " study sessions totaling " ++
            toString (ys.length * 2) ++ " hours" } := by
      simp only [suggest_study_schedule_tool, Option.bind_eq_bind', hys, Option.some_bind,
        Option.pure_def]
    refine ⟨_, heq, rfl, rfl, rfl, ?_, ?_⟩
    · rw [mapMOpt_length _ _ _ hys, List.length_range]
    · intro s hs
      obtain ⟨i, -, hmk⟩ := mapMOpt_mem _ _ _ hys s hs
      exact ⟨i, hmk⟩

theorem analyze_isSome (cs ts cw tw : Nat) (htw : tw ≠ 0) :
    (analyze_learning_progress_tool cs ts cw tw).isSome := by
  have h0 : ((tw : ℚ)) ≠ 0 := Nat.cast_ne_zero.mpr htw
  simp only [analyze_learning_progress_tool, Option.bind_eq_bind', pydivQ, if_neg h0,
    Option.some_bind, Option.pure_def, Option.isSome_some]

theorem analyze_some_spec (cs ts cw tw : Nat) (r : ProgressReport)
    (h : analyze_learning_progress_tool cs ts cw tw = some r) :
    tw ≠ 0 ∧
    r.onTrack = decide ((cs : ℚ) ≥ (cw : ℚ) / (tw : ℚ) * (ts : ℚ) * (9 / 10)) ∧
    r.recommendations =
      (if completionRateOf cs ts < 70 then [recSchedule] else []) ++
      (if r.onTrack = false then [recBehind] else []) ++
      (if completionRateOf cs ts > 90 then [recExcellent] else []) ++
      (if (cw : ℚ) > (tw : ℚ) / 2 ∧ completionRateOf cs ts < 50
       then [recHalfway] else []) := by
  simp only [analyze_learning_progress_tool, Option.bind_eq_bind', pydivQ] at h
  by_cases h0 : ((tw : ℚ)) = 0
  · rw [if_pos h0] at h
    simp at h
  · rw [if_neg h0] at h
    simp only [Option.some_bind, Option.pure_def, Option.some.injEq] at h
    subst h
    refine ⟨fun htw => h0 (by rw [htw]; norm_num), rfl, rfl⟩

theorem not_mem_ite_singleton {c : Prop} [Decidable c] {a b : String} (hne : a ≠ b) :
    a ∉ (if c then [b] else []) := by
  split
  · simp [hne]
  · simp

theorem analyze_15_40_2_8 :
    analyze_learning_progress_tool 15 40 2 8 = some
      { success := true, completionRate := 75 / 2, weekProgress := 25,
        onTrack := true, status := "Needs Attention",
        completedSessions := 15, totalSessions := 40, sessionsRemaining := 25,
        recommendations := [recSchedule] } := by
  have hcr : completionRateOf 15 40 = 75 / 2 := by
    unfold completionRateOf
    norm_num
  have hwp : weekProgressOf 2 8 = 25 := by
    unfold weekProgressOf
    norm_num
  have hr1 : round2 (75 / 2) = 75 / 2 := by
    rw [round2_of_cast 3750 (75 / 2) (by norm_num)]
    norm_num
  have hr2 : round2 (25 : ℚ) = 25 := by
    rw [round2_of_cast 2500 25 (by norm_num)]
    norm_num
  simp only [analyze_learning_progress_tool, pydivQ, hcr, hwp]
  norm_num [hr1, hr2]

/-- Claim C1 (code bug evidence): with total_weeks = 0 the analyzer does NOT
return normally: the unguarded division of line 185 (expected_completion)
raises ZeroDivisionError, modelled here as none. The claim says the
function is total over all non-negative inputs, including the
expectedCompletion computation; the code contradicts it at this input. -/
theorem analyze_divzero_totalWeeks_zero :
    analyze_learning_progress_tool 1 2 1 0 = none := by
  simp [analyze_learning_progress_tool, pydivQ]

/-- Claim C2 counterexample: the third session of plan(6, [Monday,
Wednesday, Friday], morning) starts at 11:00 AM and ends at 1:00 PM,
while the claimed rule (wrap keeping the AM/PM suffix as-is) would give
1:00 AM. The code does not keep the suffix: it writes PM on every wrap. -/
theorem wrap_keep_suffix_refuted :
    ((suggest_study_schedule_tool 6 ["Monday", "Wednesday", "Friday"] "morning").bind
        (fun r => r.schedule.get? 2)).map (fun s => (s.startTime, s.endTime)) =
      some ("11:00 AM", "1:00 PM") ∧
    specKeepSuffixEndTime 11 "AM" = "1:00 AM" ∧ ("1:00 PM" : String) ≠ "1:00 AM" :=
  ⟨by decide, by decide, by decide⟩

/-- Claim C2 (amended): for every session the planner produces, the end
time is start + 2 hours on a 12-hour clock where, when startHour + 2
exceeds 12, the hour wraps by subtracting 12 and the suffix is set to PM
unconditionally; otherwise the hour is startHour + 2 with the suffix of
the start time unchanged. -/
theorem end_time_wrap_sets_pm (ah : Nat) (days : List String) (tp : String)
    (r : ScheduleResult) (s : StudySession)
    (hr : suggest_study_schedule_tool ah days tp = some r) (hs : s ∈ r.schedule)
    (hh : Nat) (suf : String) (hp : parseStart s.startTime = some (hh, suf)) :
    s.endTime = if hh + 2 > 12 then toString (hh + 2 - 12) ++ ":00 " ++ "PM"
                else toString (hh + 2) ++ ":00 " ++ suf := by
  obtain ⟨r2, hr2, -, -, -, -, hmem⟩ := suggest_spec ah days tp
  rw [hr] at hr2
  obtain rfl := Option.some.inj hr2
  obtain ⟨i, hmk⟩ := hmem s hs
  exact (mkSession_some_spec hmk).2.2 hh suf hp

/-- Witness for the amended C2 theorem at plan(6, [Monday, Wednesday,
Friday], morning) and its third session (11:00 AM start). -/
theorem end_time_wrap_sets_pm_witness :
    suggest_study_schedule_tool 6 ["Monday", "Wednesday", "Friday"] "morning" = some
      { success := true, totalHours := 6, sessionsPerWeek := 3,
        schedule := [
          { day := 1, dayName := "Monday", startTime := "9:00 AM",
            endTime := "11:00 AM", duration := 2 },
          { day := 3, dayName := "Wednesday", startTime := "10:00 AM",
            endTime := "12:00 AM", duration := 2 },
          { day := 5, dayName := "Friday", startTime := "11:00 AM",
            endTime := "1:00 PM", duration := 2 }],
        message := "Created 3 study sessions totaling 6 hours" } ∧
    parseStart "11:00 AM" = some (11, "AM") ∧
    ({ day := 5, dayName := "Friday", startTime := "11:00 AM", endTime := "1:00 PM",
       duration := 2 } : StudySession).endTime =
      if 11 + 2 > 12 then toString (11 + 2 - 12) ++ ":00 " ++ "PM"
      else toString (11 + 2) ++ ":00 " ++ "AM" :=
  ⟨by decide, by decide,
   end_time_wrap_sets_pm 6 ["Monday", "Wednesday", "Friday"] "morning"
     { success := true, totalHours := 6, sessionsPerWeek := 3,
       schedule := [
         { day := 1, dayName := "Monday", startTime := "9:00 AM",
           endTime := "11:00 AM", duration := 2 },
         { day := 3, dayName := "Wednesday", startTime := "10:00 AM",
           endTime := "12:00 AM", duration := 2 },
         { day := 5, dayName := "Friday", startTime := "11:00 AM",
           endTime := "1:00 PM", duration := 2 }],
       message := "Created 3 study sessions totaling 6 hours" }
     { day := 5, dayName := "Friday", startTime := "11:00 AM", endTime := "1:00 PM",
       duration := 2 }
     (by decide) (by decide) 11 "AM" (by decide)⟩

/-- Claim C3 counterexample: on plan(10, [Monday, Wednesday, Friday],
morning) the third (Friday) session ends at 1:00 PM, not at the 1:00 AM
that the documented section 4.1 step 5 wrap rule (keep the suffix as-is)
prescribes for an 11 AM start. -/
theorem plan_ten_mwf_spec_wrap_refuted :
    ((suggest_study_schedule_tool 10 ["Monday", "Wednesday", "Friday"] "morning").bind
        (fun r => r.schedule.get? 2)).map (fun s => (s.startTime, s.endTime)) =
      some ("11:00 AM", "1:00 PM") ∧
    specKeepSuffixEndTime 11 "AM" = "1:00 AM" ∧ ("1:00 PM" : String) ≠ "1:00 AM" :=
  ⟨by decide, by decide, by decide⟩

/-- Claim C3 (amended): plan(10, [Monday, Wednesday, Friday], morning)
returns exactly three sessions: (Monday, 9:00 AM, 11:00 AM),
(Wednesday, 10:00 AM, 12:00 AM - the genuine quirk: the suffix is not
flipped at exactly 12), and (Friday, 11:00 AM, 1:00 PM - the wrap branch
writes PM, which differs from the rule as documented). -/
theorem plan_ten_mwf_morning_value :
    suggest_study_schedule_tool 10 ["Monday", "Wednesday", "Friday"] "morning" = some
      { success := true, totalHours := 10, sessionsPerWeek := 3,
        schedule := [
          { day := 1, dayName := "Monday", startTime := "9:00 AM",
            endTime := "11:00 AM", duration := 2 },
          { day := 3, dayName := "Wednesday", startTime := "10:00 AM",
            endTime := "12:00 AM", duration := 2 },
          { day := 5, dayName := "Friday", startTime := "11:00 AM",
            endTime := "1:00 PM", duration := 2 }],
        message := "Created 3 study sessions totaling 6 hours" } := by decide

/-- Claim C4: for every availableHours and non-empty preferredDays the
planner returns normally with exactly min(availableHours / 2,
len(preferredDays)) sessions, each of duration 2; in particular it is
empty when availableHours is 0. -/
theorem plan_count_and_duration (ah : Nat) (days : List String) (tp : String)
    (_hd : days ≠ []) :
    ∃ r, suggest_study_schedule_tool ah days tp = some r ∧
      r.schedule.length = min (ah / 2) days.length ∧
      ∀ s ∈ r.schedule, s.duration = 2 := by
  obtain ⟨r, hr, -, -, -, hlen, hmem⟩ := suggest_spec ah days tp
  refine ⟨r, hr, hlen, fun s hs => ?_⟩
  obtain ⟨i, hmk⟩ := hmem s hs
  exact (mkSession_some_spec hmk).1

/-- Witness for C4 at plan(4, [Monday], morning). -/
theorem plan_count_and_duration_witness :
    (["Monday"] : List String) ≠ [] ∧
    ∃ r, suggest_study_schedule_tool 4 ["Monday"] "morning" = some r ∧
      r.schedule.length = min (4 / 2) (["Monday"] : List String).length ∧
      ∀ s ∈ r.schedule, s.duration = 2 :=
  ⟨by decide, plan_count_and_duration 4 ["Monday"] "morning" (by decide)⟩

/-- Claim C5: analyze(15, 40, 2, 8) returns completionRate 37.5,
weekProgress 25, status Needs Attention, with the schedule-review
recommendation present and the excellent-progress recommendation
absent. -/
theorem analyze_example_fields :
    ∃ r, analyze_learning_progress_tool 15 40 2 8 = some r ∧
      r.completionRate = 37.5 ∧ r.weekProgress = 25 ∧ r.status = "Needs Attention" ∧
      recSchedule ∈ r.recommendations ∧ recExcellent ∉ r.recommendations := by
  refine ⟨_, analyze_15_40_2_8, by norm_num, rfl, rfl, List.mem_singleton.mpr rfl, ?_⟩
  intro hmem
  rw [List.mem_singleton] at hmem
  exact absurd hmem (by decide)

/-- Claim C6: for every availableHours and timePreference, the planner
called with an empty preferredDays list returns normally (the loop runs
zero times, so the i mod len(preferredDays) hazard is never evaluated)
with an empty session list. -/
theorem plan_empty_days_total (ah : Nat) (tp : String) :
    suggest_study_schedule_tool ah [] tp = some
      { success := true, totalHours := ah, sessionsPerWeek := 0, schedule := [],
        message := "Created 0 study sessions totaling 0 hours" } :=
  suggest_nil ah tp

/-- Claim C7: whenever the analyzer returns, its recommendations list is
exactly the concatenation, in the fixed order a, b, c, d, of the four
advisory singletons gated by completionRate < 70, not onTrack,
completionRate > 90, and currentWeek > totalWeeks / 2 with
completionRate < 50 - each appended independently, so 0 to 4 entries. -/
theorem recommendations_order (cs ts cw tw : Nat) (r : ProgressReport)
    (hr : analyze_learning_progress_tool cs ts cw tw = some r) :
    r.recommendations =
      (if completionRateOf cs ts < 70 then [recSchedule] else []) ++
      (if r.onTrack = false then [recBehind] else []) ++
      (if completionRateOf cs ts > 90 then [recExcellent] else []) ++
      (if (cw : ℚ) > (tw : ℚ) / 2 ∧ completionRateOf cs ts < 50
       then [recHalfway] else []) :=
  (analyze_some_spec cs ts cw tw r hr).2.2

/-- Witness for C7 at analyze(15, 40, 2, 8). -/
theorem recommendations_order_witness :
    ({ success := true, completionRate := 75 / 2, weekProgress := 25,
       onTrack := true, status := "Needs Attention",
       completedSessions := 15, totalSessions := 40, sessionsRemaining := 25,
       recommendations := [recSchedule] } : ProgressReport).recommendations =
      (if completionRateOf 15 40 < 70 then [recSchedule] else []) ++
      (if ({ success := true, completionRate := 75 / 2, weekProgress := 25,
             onTrack := true, status := "Needs Attention",
             completedSessions := 15, totalSessions := 40, sessionsRemaining := 25,
             recommendations := [recSchedule] } : ProgressReport).onTrack = false
       then [recBehind] else []) ++
      (if completionRateOf 15 40 > 90 then [recExcellent] else []) ++
      (if ((2 : Nat) : ℚ) > ((8 : Nat) : ℚ) / 2 ∧ completionRateOf 15 40 < 50
       then [recHalfway] else []) :=
  recommendations_order 15 40 2 8 _ analyze_15_40_2_8

/-- Claim C8: an unrecognized timePreference makes the planner behave
exactly as with the morning pool, the call still returns normally, and
any session whose day name is outside the seven recognized weekday names
gets day index 1 (the Monday fallback of dict.get). -/
theorem malformed_inputs_fall_back (ah : Nat) (days : List String) (tp : String)
    (htp : tp ∉ (["morning", "afternoon", "evening"] : List String)) :
    suggest_study_schedule_tool ah days tp = suggest_study_schedule_tool ah days "morning" ∧
    (suggest_study_schedule_tool ah days tp).isSome ∧
    ∀ r, suggest_study_schedule_tool ah days tp = some r → ∀ s ∈ r.schedule,
      s.dayName ∉ (["Sunday", "Monday", "Tuesday", "Wednesday", "Thursday", "Friday",
        "Saturday"] : List String) → s.day = 1 := by
  simp only [List.mem_cons, not_or] at htp
  obtain ⟨h1, h2, h3, -⟩ := htp
  have e1 : (tp == "morning") = false := beq_eq_false_iff_ne.mpr h1
  have e2 : (tp == "afternoon") = false := beq_eq_false_iff_ne.mpr h2
  have e3 : (tp == "evening") = false := beq_eq_false_iff_ne.mpr h3
  have hlook : List.lookup tp time_slots = none := by
    simp [time_slots, List.lookup, e1, e2, e3]
  refine ⟨?_, ?_, ?_⟩
  · simp only [suggest_study_schedule_tool, hlook, Option.getD_none]
    rfl
  · obtain ⟨r, hr, -⟩ := suggest_spec ah days tp
    rw [hr]
    rfl
  · intro r hr s hs hname
    obtain ⟨r2, hr2, -, -, -, -, hmem⟩ := suggest_spec ah days tp
    rw [hr] at hr2
    obtain rfl := Option.some.inj hr2
    obtain ⟨i, hmk⟩ := hmem s hs
    have hday := (mkSession_some_spec hmk).2.1
    simp only [List.mem_cons, not_or] at hname
    obtain ⟨n1, n2, n3, n4, n5, n6, n7, -⟩ := hname
    have f1 : (s.dayName == "Sunday") = false := beq_eq_false_iff_ne.mpr n1
    have f2 : (s.dayName == "Monday") = false := beq_eq_false_iff_ne.mpr n2
    have f3 : (s.dayName == "Tuesday") = false := beq_eq_false_iff_ne.mpr n3
    have f4 : (s.dayName == "Wednesday") = false := beq_eq_false_iff_ne.mpr n4
    have f5 : (s.dayName == "Thursday") = false := beq_eq_false_iff_ne.mpr n5
    have f6 : (s.dayName == "Friday") = false := beq_eq_false_iff_ne.mpr n6
    have f7 : (s.dayName == "Saturday") = false := beq_eq_false_iff_ne.mpr n7
    rw [hday]
    simp [day_mapping, List.lookup, f1, f2, f3, f4, f5, f6, f7]

/-- Witness for C8 at plan(4, [Funday], night). -/
theorem malformed_inputs_fall_back_witness :
    ("night" : String) ∉ (["morning", "afternoon", "evening"] : List String) ∧
    (suggest_study_schedule_tool 4 ["Funday"] "night" =
      suggest_study_schedule_tool 4 ["Funday"] "morning" ∧
     (suggest_study_schedule_tool 4 ["Funday"] "night").isSome ∧
     ∀ r, suggest_study_schedule_tool 4 ["Funday"] "night" = some r → ∀ s ∈ r.schedule,
       s.dayName ∉ (["Sunday", "Monday", "Tuesday", "Wednesday", "Thursday", "Friday",
         "Saturday"] : List String) → s.day = 1) :=
  ⟨by decide, malformed_inputs_fall_back 4 ["Funday"] "night" (by decide)⟩

/-- Claim C9: every result envelope the planner returns has success true,
sessionsPerWeek equal to the length of its schedule list, and totalHours
echoing the available_hours argument unchanged - even when the hours
actually scheduled are fewer (see the witness: 3 sessions, 6 hours
scheduled, totalHours still 10). -/
theorem envelope_invariants (ah : Nat) (days : List String) (tp : String)
    (r : ScheduleResult) (hr : suggest_study_schedule_tool ah days tp = some r) :
    r.success = true ∧ r.sessionsPerWeek = r.schedule.length ∧ r.totalHours = ah := by
  obtain ⟨r2, hr2, hsucc, hth, hspw, -, -⟩ := suggest_spec ah days tp
  rw [hr] at hr2
  obtain rfl := Option.some.inj hr2
  exact ⟨hsucc, hspw, hth⟩

/-- Witness for C9 at plan(10, [Monday, Wednesday, Friday], morning),
where 2 * 3 = 6 scheduled hours are strictly fewer than totalHours 10. -/
theorem envelope_invariants_witness :
    suggest_study_schedule_tool 10 ["Monday", "Wednesday", "Friday"] "morning" =
      some mwfScheduleTen ∧
    (mwfScheduleTen.success = true ∧
     mwfScheduleTen.sessionsPerWeek = mwfScheduleTen.schedule.length ∧
     mwfScheduleTen.totalHours = 10) :=
  ⟨by decide,
   envelope_invariants 10 ["Monday", "Wednesday", "Friday"] "morning" mwfScheduleTen
     (by decide)⟩

/-- Claim C10: for every completedSessions, totalSessions and positive
totalWeeks, analyze at currentWeek = 0 returns with onTrack true
(expected completion is 0 and any non-negative count meets the 90
percent threshold), so the behind-schedule recommendation is absent. -/
theorem week_zero_on_track (cs ts tw : Nat) (htw : 0 < tw) :
    ∃ r, analyze_learning_progress_tool cs ts 0 tw = some r ∧
      r.onTrack = true ∧ recBehind ∉ r.recommendations := by
  obtain ⟨r, hr⟩ := Option.isSome_iff_exists.mp (analyze_isSome cs ts 0 tw htw.ne')
  obtain ⟨-, hot, hrec⟩ := analyze_some_spec cs ts 0 tw r hr
  have hot2 : r.onTrack = true := by
    rw [hot, decide_eq_true_eq]
    simp
  refine ⟨r, hr, hot2, ?_⟩
  rw [hrec, hot2]
  simp only [List.mem_append, not_or]
  refine ⟨⟨⟨not_mem_ite_singleton (by decide), ?_⟩, not_mem_ite_singleton (by decide)⟩,
    not_mem_ite_singleton (by decide)⟩
  simp

/-- Witness for C10 at analyze(3, 5, 0, 4). -/
theorem week_zero_on_track_witness :
    0 < 4 ∧ ∃ r, analyze_learning_progress_tool 3 5 0 4 = some r ∧
      r.onTrack = true ∧ recBehind ∉ r.recommendations :=
  ⟨by decide, week_zero_on_track 3 5 4 (by decide)⟩
